import Mathlib

/-!
Verification development for `src/process_data.py`, an AWS Lambda handler that,
on an S3 object-created notification, reads the object, uppercases its UTF-8
text, and writes one item to the DynamoDB table `processed-data`.

The embedding models:
- the S3 event payload (`event['Records'][0]['s3']['bucket']['name']`,
  `event['Records'][0]['s3']['object']['key']`) as nested structures with
  `Option` fields for keys that may be absent (a missing key raises `KeyError`
  in Python, surfaced here as `HandlerError.malformedInput`);
- S3 object storage as an association list from (bucket, key) to raw bytes;
- `bytes.decode('utf-8')` as a strict UTF-8 decoder (`utf8Decode`), rejecting
  overlong forms, surrogates and out-of-range sequences exactly as Python does;
- `str.upper()` as per-character case mapping (`transform`);
- `json.dumps` on a string argument (`json.dumps` below), which wraps the
  string in double quotes and escapes using Python's default `ensure_ascii`;
- DynamoDB as an association list from table name to a list of items, where
  `put_item` overwrites any item with the same `id` (the table's primary key);
- `lambda_handler` as a function from the external state (S3 contents,
  DynamoDB state), the event and the context to the invocation outcome, the
  resulting DynamoDB state, and the trace of I/O effects performed.
-/

/-- Bytes of an S3 object, each in `0..255`. -/
abbrev Bytes := List Nat

/-- S3 object storage: an association list from (bucket name, object key) to
the object's raw bytes. -/
abbrev S3State := List (String × String × Bytes)

/-- Model of `s3.get_object(Bucket=bucket, Key=key)` (line 13): returns the
object's bytes, or `none` when no such object exists (Python raises a client
error, modelled as `HandlerError.storageReadError`). -/
def s3GetObject (st : S3State) (bucket key : String) : Option Bytes :=
  match st with
  | [] => none
  | (b, k, body) :: rest =>
    if b = bucket ∧ k = key then some body else s3GetObject rest bucket key

/-- One DynamoDB item as written on lines 20-23: `id` is the primary key,
`data` the processed payload; both are string attributes. -/
structure DDBItem where
  id : String
  data : String
deriving DecidableEq, Repr

/-- A DynamoDB table: a list of items, with at most one item per `id`
maintained by `putItem`. -/
abbrev DDBTable := List DDBItem

/-- DynamoDB state: an association list from table name to table. -/
abbrev DDBState := List (String × DDBTable)

/-- Semantics of a DynamoDB `PutItem` on one table: the new item replaces any
existing item with the same primary key `id` (unconditional overwrite). -/
def putItem (t : DDBTable) (item : DDBItem) : DDBTable :=
  item :: t.filter (fun x => x.id != item.id)

/-- Look up a table by name; a table not yet written is empty. -/
def tableGet (db : DDBState) (name : String) : DDBTable :=
  match db with
  | [] => []
  | (n, t) :: rest => if n = name then t else tableGet rest name

/-- Model of `dynamodb.put_item(TableName=name, Item=item)` (line 24): update
the named table with `putItem`, leaving every other table unchanged. -/
def ddbPutItem (db : DDBState) (name : String) (item : DDBItem) : DDBState :=
  match db with
  | [] => [(name, putItem [] item)]
  | (n, t) :: rest =>
    if n = name then (n, putItem t item) :: rest
    else (n, t) :: ddbPutItem rest name item

/-- True when `b` is a UTF-8 continuation byte `0x80..0xBF`. -/
def isCont (b : Nat) : Bool := 128 ≤ b && b ≤ 191

/-- Valid range of the first continuation byte after a 3-byte leader `b`,
excluding overlong forms (leader `0xE0`) and surrogates (leader `0xED`). -/
def cont3Ok (b c : Nat) : Bool :=
  if b = 224 then 160 ≤ c && c ≤ 191
  else if b = 237 then 128 ≤ c && c ≤ 159
  else isCont c

/-- Valid range of the first continuation byte after a 4-byte leader `b`,
excluding overlong forms (leader `0xF0`) and values above `U+10FFFF`
(leader `0xF4`). -/
def cont4Ok (b c : Nat) : Bool :=
  if b = 240 then 144 ≤ c && c ≤ 191
  else if b = 244 then 128 ≤ c && c ≤ 143
  else isCont c

/-- Strict UTF-8 decoding of a byte list into characters, mirroring Python's
`bytes.decode('utf-8')`: rejects stray continuation bytes, truncated
sequences, overlong encodings, surrogate code points and values above
`U+10FFFF`. -/
def utf8DecodeList : List Nat → Option (List Char)
  | [] => some []
  | b :: rest =>
    if b ≤ 127 then
      (utf8DecodeList rest).map (fun cs => Char.ofNat b :: cs)
    else if 194 ≤ b && b ≤ 223 then
      match rest with
      | c :: rest2 =>
        if isCont c then
          (utf8DecodeList rest2).map
            (fun cs => Char.ofNat ((b - 192) * 64 + (c - 128)) :: cs)
        else none
      | [] => none
    else if 224 ≤ b && b ≤ 239 then
      match rest with
      | c :: d :: rest2 =>
        if cont3Ok b c && isCont d then
          (utf8DecodeList rest2).map
            (fun cs => Char.ofNat ((b - 224) * 4096 + (c - 128) * 64 + (d - 128)) :: cs)
        else none
      | _ => none
    else if 240 ≤ b && b ≤ 244 then
      match rest with
      | c :: d :: e :: rest2 =>
        if cont4Ok b c && isCont d && isCont e then
          (utf8DecodeList rest2).map
            (fun cs =>
              Char.ofNat ((b - 240) * 262144 + (c - 128) * 4096 + (d - 128) * 64 + (e - 128)) :: cs)
        else none
      | _ => none
    else none

/-- Model of `response['Body'].read().decode('utf-8')` (line 14): decode the
object bytes as UTF-8 text, or fail (Python raises `UnicodeDecodeError`,
modelled as `HandlerError.decodeError`). -/
def utf8Decode (bs : Bytes) : Option String :=
  (utf8DecodeList bs).map String.mk

/-- Embedding of `data.upper()` (line 17): per-character case mapping. Python's
`str.upper()` is Unicode-aware; the spec fixes the transform to plain case
folding with no locale-sensitive edge cases, so the basic-latin case map
`Char.toUpper` is used character by character. -/
def transform (s : String) : String :=
  String.mk (s.data.map Char.toUpper)

/-- Modelled from the spec: step 4 of the contract, "Transform: uppercase the
entire text", as a per-character uppercase mapping over the string. -/
def spec_uppercase (s : String) : String :=
  String.mk (s.data.map Char.toUpper)

/-- Lowercase hexadecimal digit for `n < 16`, as produced by Python's
`json` escaping. -/
def hexDigit (n : Nat) : Char :=
  if n < 10 then Char.ofNat (48 + n) else Char.ofNat (87 + n)

/-- Four-digit lowercase hexadecimal rendering of `n < 65536`. -/
def hex4 (n : Nat) : String :=
  String.mk [hexDigit (n / 4096 % 16), hexDigit (n / 256 % 16),
             hexDigit (n / 16 % 16), hexDigit (n % 16)]

/-- Escaping of one character inside a JSON string literal, following Python's
`json.dumps` default (`ensure_ascii=True`): two-character escapes for quote,
backslash and common control characters, `\uXXXX` for other control and all
non-ASCII characters (with surrogate pairs beyond the basic plane), and the
character itself otherwise. -/
def jsonEscapeChar (c : Char) : String :=
  if c = Char.ofNat 34 then String.mk [Char.ofNat 92, Char.ofNat 34]
  else if c = Char.ofNat 92 then String.mk [Char.ofNat 92, Char.ofNat 92]
  else if c.toNat = 8 then String.mk [Char.ofNat 92, Char.ofNat 98]
  else if c.toNat = 9 then String.mk [Char.ofNat 92, Char.ofNat 116]
  else if c.toNat = 10 then String.mk [Char.ofNat 92, Char.ofNat 110]
  else if c.toNat = 12 then String.mk [Char.ofNat 92, Char.ofNat 102]
  else if c.toNat = 13 then String.mk [Char.ofNat 92, Char.ofNat 114]
  else if c.toNat < 32 || 126 < c.toNat then
    if c.toNat < 65536 then
      String.mk [Char.ofNat 92, Char.ofNat 117] ++ hex4 c.toNat
    else
      String.mk [Char.ofNat 92, Char.ofNat 117] ++ hex4 (55296 + (c.toNat - 65536) / 1024) ++
      String.mk [Char.ofNat 92, Char.ofNat 117] ++ hex4 (56320 + (c.toNat - 65536) % 1024)
  else String.singleton c

/-- Model of Python's `json.dumps` applied to a string (line 29): the escaped
characters wrapped in double quotes. -/
def json.dumps (s : String) : String :=
  String.singleton (Char.ofNat 34) ++ String.join (s.data.map jsonEscapeChar) ++
  String.singleton (Char.ofNat 34)

/-- The `bucket` object of an S3 event record; `name` is `none` when the
`'name'` key is absent from the payload. -/
structure S3BucketRef where
  name : Option String
deriving DecidableEq, Repr

/-- The `object` object of an S3 event record; `key` is `none` when the
`'key'` key is absent from the payload. -/
structure S3ObjectRef where
  key : Option String
deriving DecidableEq, Repr

/-- The `s3` object of one event record. -/
structure S3RecordData where
  bucket : S3BucketRef
  object : S3ObjectRef
deriving DecidableEq, Repr

/-- One entry of the event's `Records` list. -/
structure EventRecord where
  s3 : S3RecordData
deriving DecidableEq, Repr

/-- The trigger event: `Records` is `none` when the `'Records'` key is absent
from the payload. -/
structure Event where
  Records : Option (List EventRecord)
deriving DecidableEq, Repr

/-- The Lambda context object passed as the handler's second argument. The
handler never reads it; representative fields are included so that
independence from the context is a non-trivial statement. -/
structure Context where
  functionName : String
  awsRequestId : String
  memoryLimitInMB : Nat
deriving DecidableEq, Repr

/-- The error taxonomy of the specification: each constructor corresponds to
one failure point of the handler (Python raises `KeyError`/`IndexError`, an S3
client error, `UnicodeDecodeError`, or a DynamoDB client error; all propagate
and abort the invocation). -/
inductive HandlerError where
  | malformedInput
  | storageReadError
  | decodeError
  | storageWriteError
deriving DecidableEq, Repr

/-- The success envelope returned on lines 27-30. -/
structure HandlerResult where
  statusCode : Nat
  body : String
deriving DecidableEq, Repr

/-- One externally visible I/O effect of an invocation. -/
inductive Effect where
  | s3Read (bucket key : String)
  | ddbWrite (table : String) (item : DDBItem)
deriving DecidableEq, Repr

deriving instance DecidableEq for Except

/-- Embedding of `lambda_handler(event, context)` (lines 7-30), explicit in the
external state: given the S3 contents and the DynamoDB state, an invocation
yields the outcome (success envelope or propagated error), the resulting
DynamoDB state, and the ordered trace of I/O effects performed. Field
resolution follows lines 9-10 (bucket name first, then object key); a missing
`Records` key, an empty `Records` list, or a missing `name`/`key` field raises
before any I/O. -/
def lambda_handler (s3St : S3State) (db : DDBState) (event : Event)
    (context : Context) : Except HandlerError HandlerResult × DDBState × List Effect :=
  match event.Records with
  | none => (Except.error HandlerError.malformedInput, db, [])
  | some [] => (Except.error HandlerError.malformedInput, db, [])
  | some (r :: _) =>
    match r.s3.bucket.name with
    | none => (Except.error HandlerError.malformedInput, db, [])
    | some bucket_name =>
      match r.s3.object.key with
      | none => (Except.error HandlerError.malformedInput, db, [])
      | some object_key =>
        match s3GetObject s3St bucket_name object_key with
        | none =>
          (Except.error HandlerError.storageReadError, db,
           [Effect.s3Read bucket_name object_key])
        | some bytes =>
          match utf8Decode bytes with
          | none =>
            (Except.error HandlerError.decodeError, db,
             [Effect.s3Read bucket_name object_key])
          | some data =>
            let processed_data := transform data
            let item : DDBItem := { id := object_key, data := processed_data }
            (Except.ok { statusCode := 200, body := json.dumps "Data processed successfully!" },
             ddbPutItem db "processed-data" item,
             [Effect.s3Read bucket_name object_key,
              Effect.ddbWrite "processed-data" item])

/-! ### Helper lemmas -/

/-- The basic-latin case map is idempotent: uppercasing an already uppercased
character changes nothing. -/
theorem Char.toUpper_toUpper (c : Char) : c.toUpper.toUpper = c.toUpper := by
  by_cases h : c.toNat ≥ 97 ∧ c.toNat ≤ 122
  · have h1 : c.toUpper = Char.ofNat (c.toNat - 32) := by
      simp only [Char.toUpper]
      rw [if_pos h]
    rw [h1]
    have key : ∀ n : Nat, 97 ≤ n → n ≤ 122 →
        (Char.ofNat (n - 32)).toUpper = Char.ofNat (n - 32) := by
      intro n h1 h2
      interval_cases n <;> decide
    exact key c.toNat h.1 h.2
  · have h1 : c.toUpper = c := by
      simp only [Char.toUpper]
      rw [if_neg h]
    rw [h1, h1]

/-- `transform` is idempotent. -/
theorem transform_transform (s : String) : transform (transform s) = transform s := by
  unfold transform
  apply congrArg String.mk
  show (s.data.map Char.toUpper).map Char.toUpper = s.data.map Char.toUpper
  rw [List.map_map]
  exact List.map_congr_left fun a _ => Char.toUpper_toUpper a

/-- Dropping all items keyed `k` and then keeping only items keyed `k`
leaves nothing. -/
theorem filter_filter_ne_nil (t : DDBTable) (k : String) :
    (t.filter (fun x => x.id != k)).filter (fun x => x.id == k) = [] := by
  induction t with
  | nil => rfl
  | cons a t ih =>
    by_cases h : a.id = k
    · simp [List.filter_cons, h, ih]
    · simp [List.filter_cons, h, ih]

/-- After a `putItem`, the items keyed by the new item's `id` are exactly the
new item: the primary key stays unique and the write wins. -/
theorem filter_putItem_eq (t : DDBTable) (item : DDBItem) :
    (putItem t item).filter (fun x => x.id == item.id) = [item] := by
  unfold putItem
  simp [List.filter_cons, filter_filter_ne_nil t item.id]

/-- `ddbPutItem` updates the named table with `putItem`. -/
theorem tableGet_ddbPutItem_self (db : DDBState) (name : String) (item : DDBItem) :
    tableGet (ddbPutItem db name item) name = putItem (tableGet db name) item := by
  induction db with
  | nil => simp [ddbPutItem, tableGet]
  | cons p rest ih =>
    obtain ⟨n, t⟩ := p
    by_cases h : n = name
    · simp [ddbPutItem, tableGet, h]
    · simp [ddbPutItem, tableGet, h, ih]

/-- `ddbPutItem` leaves every other table unchanged. -/
theorem tableGet_ddbPutItem_ne (db : DDBState) (name other : String) (item : DDBItem)
    (h : other ≠ name) :
    tableGet (ddbPutItem db name item) other = tableGet db other := by
  induction db with
  | nil => simp [ddbPutItem, tableGet, Ne.symm h]
  | cons p rest ih =>
    obtain ⟨n, t⟩ := p
    by_cases h1 : n = name
    · subst h1
      simp [ddbPutItem, tableGet, Ne.symm h]
    · by_cases h2 : n = other
      · simp [ddbPutItem, tableGet, h1, h2, h]
      · simp [ddbPutItem, tableGet, h1, h2, ih]

/-- Shape of a fully successful invocation: when the event resolves to a
bucket and key, the object exists and its bytes decode, the handler returns
the success envelope, performs the put of the uppercased content under the
object key, and traces exactly one read followed by one write. -/
theorem lambda_handler_success_eq (s3St : S3State) (db : DDBState) (e : Event)
    (ctx : Context) (r : EventRecord) (rest : List EventRecord) (bn k : String)
    (bs : Bytes) (s : String)
    (hr : e.Records = some (r :: rest)) (hb : r.s3.bucket.name = some bn)
    (hk : r.s3.object.key = some k) (hg : s3GetObject s3St bn k = some bs)
    (hd : utf8Decode bs = some s) :
    lambda_handler s3St db e ctx =
      (Except.ok { statusCode := 200, body := json.dumps "Data processed successfully!" },
       ddbPutItem db "processed-data" { id := k, data := transform s },
       [Effect.s3Read bn k, Effect.ddbWrite "processed-data" { id := k, data := transform s }]) := by
  simp only [lambda_handler, hr, hb, hk, hg, hd]

/-- Any invocation that returns `Except.ok` returns the one success envelope
built on lines 27-30. -/
theorem lambda_handler_ok_shape (s3St : S3State) (db : DDBState) (e : Event)
    (ctx : Context) (res : HandlerResult) (st : DDBState) (tr : List Effect)
    (h : lambda_handler s3St db e ctx = (Except.ok res, st, tr)) :
    res = { statusCode := 200, body := json.dumps "Data processed successfully!" } := by
  unfold lambda_handler at h
  repeat' split at h
  all_goals simp_all

/-- Evaluating the model of `json.dumps` on the success message: the message
is wrapped in literal double-quote characters. -/
theorem json_dumps_success_msg :
    json.dumps "Data processed successfully!" = "\"Data processed successfully!\"" := by
  decide

/-! ### Concrete data used by the witnesses -/

/-- UTF-8 bytes of `"hello world"`. -/
def demoBytes : Bytes := [104, 101, 108, 108, 111, 32, 119, 111, 114, 108, 100]

/-- An S3 state holding one object `notes.txt` with content `"hello world"`. -/
def demoS3 : S3State := [("my-bucket", "notes.txt", demoBytes)]

/-- A well-formed event record referencing `my-bucket / notes.txt`. -/
def demoRecord : EventRecord :=
  { s3 := { bucket := { name := some "my-bucket" }, object := { key := some "notes.txt" } } }

/-- A well-formed event whose `Records` list holds exactly `demoRecord`. -/
def demoEvent : Event := { Records := some [demoRecord] }

/-- A sample Lambda context. -/
def demoCtx : Context :=
  { functionName := "process_data", awsRequestId := "req-1", memoryLimitInMB := 128 }

/-! ### Claims -/

/-- C1: for every valid notification referencing an existing readable object
whose content decodes to string `s`, invoking the handler leaves in the
key-value table exactly one record with id the notification's object key and
data `uppercase(s)`, and the returned result has `statusCode = 200`. -/
theorem C1_success_stores_uppercase_record (s3St : S3State) (db : DDBState)
    (e : Event) (ctx : Context) (r : EventRecord) (rest : List EventRecord)
    (bn k : String) (bs : Bytes) (s : String)
    (hr : e.Records = some (r :: rest)) (hb : r.s3.bucket.name = some bn)
    (hk : r.s3.object.key = some k) (hg : s3GetObject s3St bn k = some bs)
    (hd : utf8Decode bs = some s) :
    (∃ res, (lambda_handler s3St db e ctx).1 = Except.ok res ∧ res.statusCode = 200) ∧
    (tableGet (lambda_handler s3St db e ctx).2.1 "processed-data").filter
        (fun x => x.id == k) = [{ id := k, data := spec_uppercase s }] := by
  rw [lambda_handler_success_eq s3St db e ctx r rest bn k bs s hr hb hk hg hd]
  constructor
  · exact ⟨_, rfl, rfl⟩
  · rw [tableGet_ddbPutItem_self]
    exact filter_putItem_eq _ _

/-- Witness for C1 on `demoS3`/`demoEvent`: content `"hello world"` is stored
as `HELLO WORLD` under id `notes.txt` with a 200 result. -/
theorem C1_success_stores_uppercase_record_witness :
    utf8Decode demoBytes = some "hello world" ∧
    ((∃ res, (lambda_handler demoS3 [] demoEvent demoCtx).1 = Except.ok res ∧
        res.statusCode = 200) ∧
     (tableGet (lambda_handler demoS3 [] demoEvent demoCtx).2.1 "processed-data").filter
        (fun x => x.id == "notes.txt") = [{ id := "notes.txt", data := "HELLO WORLD" }]) :=
  ⟨by decide,
   C1_success_stores_uppercase_record demoS3 [] demoEvent demoCtx demoRecord []
     "my-bucket" "notes.txt" demoBytes "hello world" rfl rfl rfl (by decide) (by decide)⟩

/-- C2: the transform applied to the object content equals string uppercasing
and is idempotent. -/
theorem C2_transform_is_uppercase_and_idempotent (s : String) :
    transform s = spec_uppercase s ∧ transform (transform s) = transform s :=
  ⟨rfl, transform_transform s⟩

/-- Counterexample to C3 as stated: on a successful invocation the returned
body is the JSON-encoded message, which carries literal double-quote
characters, so it is not equal to the plain string
`Data processed successfully!`. -/
theorem C3_counterexample_body_not_plain_message :
    (lambda_handler demoS3 [] demoEvent demoCtx).1 =
      Except.ok { statusCode := 200, body := "\"Data processed successfully!\"" } ∧
    ("\"Data processed successfully!\"" : String) ≠ "Data processed successfully!" := by
  constructor
  · decide
  · decide

/-- C3 (amended): on every successful invocation, the returned result has
status 200 and body equal to the `json.dumps` encoding of the message, the
string `Data processed successfully!` wrapped in literal double quotes. -/
theorem C3_success_envelope_amended (s3St : S3State) (db : DDBState) (e : Event)
    (ctx : Context) (res : HandlerResult) (st : DDBState) (tr : List Effect)
    (h : lambda_handler s3St db e ctx = (Except.ok res, st, tr)) :
    res.statusCode = 200 ∧ res.body = "\"Data processed successfully!\"" := by
  have hres := lambda_handler_ok_shape s3St db e ctx res st tr h
  rw [hres]
  exact ⟨rfl, json_dumps_success_msg⟩

/-- Witness for the amended C3 on `demoS3`/`demoEvent`. -/
theorem C3_success_envelope_amended_witness :
    lambda_handler demoS3 [] demoEvent demoCtx =
      (Except.ok { statusCode := 200, body := "\"Data processed successfully!\"" },
       [("processed-data", [{ id := "notes.txt", data := "HELLO WORLD" }])],
       [Effect.s3Read "my-bucket" "notes.txt",
        Effect.ddbWrite "processed-data" { id := "notes.txt", data := "HELLO WORLD" }]) ∧
    ({ statusCode := 200, body := "\"Data processed successfully!\"" } : HandlerResult).statusCode = 200 ∧
    ({ statusCode := 200, body := "\"Data processed successfully!\"" } : HandlerResult).body =
      "\"Data processed successfully!\"" :=
  ⟨by decide,
   C3_success_envelope_amended demoS3 [] demoEvent demoCtx
     { statusCode := 200, body := "\"Data processed successfully!\"" }
     [("processed-data", [{ id := "notes.txt", data := "HELLO WORLD" }])]
     [Effect.s3Read "my-bucket" "notes.txt",
      Effect.ddbWrite "processed-data" { id := "notes.txt", data := "HELLO WORLD" }]
     (by decide)⟩

/-- An event referencing an object key not present in `demoS3`. -/
def demoEventMissing : Event :=
  { Records := some [{ s3 := { bucket := { name := some "my-bucket" },
                               object := { key := some "missing.txt" } } }] }

/-- An S3 state holding one object `image.bin` whose single byte `0xFF` is not
valid UTF-8. -/
def demoS3Bad : S3State := [("my-bucket", "image.bin", [255])]

/-- An event referencing `my-bucket / image.bin`. -/
def demoEventBin : Event :=
  { Records := some [{ s3 := { bucket := { name := some "my-bucket" },
                               object := { key := some "image.bin" } } }] }

/-- C4: for every notification referencing a non-existent (or unreadable)
object, the handler fails with the storage read error, the key-value store is
unchanged, and the trace holds the attempted read and no write. -/
theorem C4_missing_object_storage_read_error (s3St : S3State) (db : DDBState)
    (e : Event) (ctx : Context) (r : EventRecord) (rest : List EventRecord)
    (bn k : String)
    (hr : e.Records = some (r :: rest)) (hb : r.s3.bucket.name = some bn)
    (hk : r.s3.object.key = some k) (hg : s3GetObject s3St bn k = none) :
    lambda_handler s3St db e ctx =
      (Except.error HandlerError.storageReadError, db, [Effect.s3Read bn k]) := by
  simp only [lambda_handler, hr, hb, hk, hg]

/-- Witness for C4: `missing.txt` is not in `demoS3`, so the invocation fails
with the storage read error and leaves the store untouched. -/
theorem C4_missing_object_storage_read_error_witness :
    s3GetObject demoS3 "my-bucket" "missing.txt" = none ∧
    lambda_handler demoS3 [] demoEventMissing demoCtx =
      (Except.error HandlerError.storageReadError, ([] : DDBState),
       [Effect.s3Read "my-bucket" "missing.txt"]) :=
  ⟨by decide,
   C4_missing_object_storage_read_error demoS3 [] demoEventMissing demoCtx _ []
     "my-bucket" "missing.txt" rfl rfl rfl (by decide)⟩

/-- C5: for every notification missing `bucket.name` or `object.key` (or the
`Records` list, including an empty one), the handler fails with the
malformed-input error, the store is unchanged and the effect trace is empty:
no I/O was performed. -/
theorem C5_malformed_event_fails_before_io (s3St : S3State) (db : DDBState)
    (e : Event) (ctx : Context)
    (h : e.Records = none ∨ e.Records = some [] ∨
         ∃ r rest, e.Records = some (r :: rest) ∧
           (r.s3.bucket.name = none ∨ r.s3.object.key = none)) :
    lambda_handler s3St db e ctx = (Except.error HandlerError.malformedInput, db, []) := by
  rcases h with h | h | ⟨r, rest, hr, hcase⟩
  · simp only [lambda_handler, h]
  · simp only [lambda_handler, h]
  · rcases hcase with hb | hk
    · simp only [lambda_handler, hr, hb]
    · cases hb2 : r.s3.bucket.name with
      | none => simp only [lambda_handler, hr, hb2]
      | some bn => simp only [lambda_handler, hr, hb2, hk]

/-- Witness for C5: an event without the `Records` key fails with the
malformed-input error, leaving the store unchanged and performing no I/O. -/
theorem C5_malformed_event_fails_before_io_witness :
    ({ Records := none } : Event).Records = none ∧
    lambda_handler demoS3 [] { Records := none } demoCtx =
      (Except.error HandlerError.malformedInput, ([] : DDBState), []) :=
  ⟨rfl,
   C5_malformed_event_fails_before_io demoS3 [] { Records := none } demoCtx (Or.inl rfl)⟩

/-- C6: for every object whose fetched bytes are not valid UTF-8, the handler
fails with the decode error, the store is unchanged, and the trace holds the
read and no write. -/
theorem C6_invalid_utf8_decode_error (s3St : S3State) (db : DDBState)
    (e : Event) (ctx : Context) (r : EventRecord) (rest : List EventRecord)
    (bn k : String) (bs : Bytes)
    (hr : e.Records = some (r :: rest)) (hb : r.s3.bucket.name = some bn)
    (hk : r.s3.object.key = some k) (hg : s3GetObject s3St bn k = some bs)
    (hd : utf8Decode bs = none) :
    lambda_handler s3St db e ctx =
      (Except.error HandlerError.decodeError, db, [Effect.s3Read bn k]) := by
  simp only [lambda_handler, hr, hb, hk, hg, hd]

/-- Witness for C6: the byte `0xFF` is not valid UTF-8, so the invocation on
`image.bin` fails with the decode error and writes nothing. -/
theorem C6_invalid_utf8_decode_error_witness :
    utf8Decode [255] = none ∧
    lambda_handler demoS3Bad [] demoEventBin demoCtx =
      (Except.error HandlerError.decodeError, ([] : DDBState),
       [Effect.s3Read "my-bucket" "image.bin"]) :=
  ⟨by decide,
   C6_invalid_utf8_decode_error demoS3Bad [] demoEventBin demoCtx _ []
     "my-bucket" "image.bin" [255] rfl rfl rfl (by decide) (by decide)⟩

/-- C7: after two successful invocations whose notifications carry the same
object key `k`, the `processed-data` table holds exactly one record with id
`k`, and its data is the transformed content of the later invocation
(last-write-wins). -/
theorem C7_last_write_wins (s3a s3b : S3State) (db : DDBState) (e1 e2 : Event)
    (c1 c2 : Context) (r1 r2 : EventRecord) (rest1 rest2 : List EventRecord)
    (b1 b2 k : String) (bs1 bs2 : Bytes) (s1 s2 : String)
    (h1r : e1.Records = some (r1 :: rest1)) (h1b : r1.s3.bucket.name = some b1)
    (h1k : r1.s3.object.key = some k) (h1g : s3GetObject s3a b1 k = some bs1)
    (h1d : utf8Decode bs1 = some s1)
    (h2r : e2.Records = some (r2 :: rest2)) (h2b : r2.s3.bucket.name = some b2)
    (h2k : r2.s3.object.key = some k) (h2g : s3GetObject s3b b2 k = some bs2)
    (h2d : utf8Decode bs2 = some s2) :
    (tableGet (lambda_handler s3b (lambda_handler s3a db e1 c1).2.1 e2 c2).2.1
        "processed-data").filter (fun x => x.id == k) =
      [{ id := k, data := transform s2 }] := by
  simp only [lambda_handler_success_eq s3a db e1 c1 r1 rest1 b1 k bs1 s1 h1r h1b h1k h1g h1d]
  simp only [lambda_handler_success_eq s3b
    (ddbPutItem db "processed-data" { id := k, data := transform s1 }) e2 c2 r2 rest2
    b2 k bs2 s2 h2r h2b h2k h2g h2d]
  rw [tableGet_ddbPutItem_self]
  exact filter_putItem_eq _ _

/-- Witness for C7: `notes.txt` first holds `"hello world"`, then `"hi"`; after
both invocations the table holds the single record `HI` under `notes.txt`. -/
theorem C7_last_write_wins_witness :
    utf8Decode [104, 105] = some "hi" ∧
    (tableGet (lambda_handler [("my-bucket", "notes.txt", [104, 105])]
        (lambda_handler demoS3 [] demoEvent demoCtx).2.1 demoEvent demoCtx).2.1
        "processed-data").filter (fun x => x.id == "notes.txt") =
      [{ id := "notes.txt", data := "HI" }] :=
  ⟨by decide,
   C7_last_write_wins demoS3 [("my-bucket", "notes.txt", [104, 105])] [] demoEvent demoEvent
     demoCtx demoCtx demoRecord demoRecord [] [] "my-bucket" "my-bucket" "notes.txt"
     demoBytes [104, 105] "hello world" "hi" rfl rfl rfl (by decide) (by decide)
     rfl rfl rfl (by decide) (by decide)⟩

/-- C8: only the first entry of the `Records` list is consumed: two events
with the same head record produce identical outcomes, store states and effect
traces, whatever their remaining records. -/
theorem C8_only_first_record_consumed (s3St : S3State) (db : DDBState)
    (e1 e2 : Event) (ctx : Context) (r : EventRecord)
    (rest1 rest2 : List EventRecord)
    (h1 : e1.Records = some (r :: rest1)) (h2 : e2.Records = some (r :: rest2)) :
    lambda_handler s3St db e1 ctx = lambda_handler s3St db e2 ctx := by
  simp only [lambda_handler, h1, h2]

/-- Witness for C8: `demoEvent` and the same event with one extra record
behave identically. -/
theorem C8_only_first_record_consumed_witness :
    demoEvent.Records = some (demoRecord :: []) ∧
    ({ Records := some [demoRecord, demoRecord] } : Event).Records =
      some (demoRecord :: [demoRecord]) ∧
    lambda_handler demoS3 [] demoEvent demoCtx =
      lambda_handler demoS3 [] { Records := some [demoRecord, demoRecord] } demoCtx :=
  ⟨rfl, rfl,
   C8_only_first_record_consumed demoS3 [] demoEvent
     { Records := some [demoRecord, demoRecord] } demoCtx demoRecord [] [demoRecord]
     rfl rfl⟩

/-- C9: a successful invocation performs exactly one storage read followed by
exactly one key-value write, the write goes to the fixed table
`processed-data`, and every other table is left unchanged. -/
theorem C9_one_read_one_write_frame (s3St : S3State) (db : DDBState)
    (e : Event) (ctx : Context) (r : EventRecord) (rest : List EventRecord)
    (bn k : String) (bs : Bytes) (s : String)
    (hr : e.Records = some (r :: rest)) (hb : r.s3.bucket.name = some bn)
    (hk : r.s3.object.key = some k) (hg : s3GetObject s3St bn k = some bs)
    (hd : utf8Decode bs = some s) :
    (lambda_handler s3St db e ctx).2.2 =
      [Effect.s3Read bn k,
       Effect.ddbWrite "processed-data" { id := k, data := transform s }] ∧
    ∀ t, t ≠ "processed-data" →
      tableGet (lambda_handler s3St db e ctx).2.1 t = tableGet db t := by
  simp only [lambda_handler_success_eq s3St db e ctx r rest bn k bs s hr hb hk hg hd]
  exact ⟨trivial, fun t ht => tableGet_ddbPutItem_ne db "processed-data" t _ ht⟩

/-- Witness for C9 on `demoS3`/`demoEvent` over a store holding an unrelated
table `other-table`: the trace is one read then one write to `processed-data`,
and `other-table` is untouched. -/
theorem C9_one_read_one_write_frame_witness :
    utf8Decode demoBytes = some "hello world" ∧
    (lambda_handler demoS3 [("other-table", [{ id := "x", data := "y" }])]
        demoEvent demoCtx).2.2 =
      [Effect.s3Read "my-bucket" "notes.txt",
       Effect.ddbWrite "processed-data" { id := "notes.txt", data := "HELLO WORLD" }] ∧
    tableGet (lambda_handler demoS3 [("other-table", [{ id := "x", data := "y" }])]
        demoEvent demoCtx).2.1 "other-table" =
      tableGet [("other-table", [{ id := "x", data := "y" }])] "other-table" :=
  ⟨by decide,
   (C9_one_read_one_write_frame demoS3 [("other-table", [{ id := "x", data := "y" }])]
      demoEvent demoCtx demoRecord [] "my-bucket" "notes.txt" demoBytes "hello world"
      rfl rfl rfl (by decide) (by decide)).1,
   (C9_one_read_one_write_frame demoS3 [("other-table", [{ id := "x", data := "y" }])]
      demoEvent demoCtx demoRecord [] "my-bucket" "notes.txt" demoBytes "hello world"
      rfl rfl rfl (by decide) (by decide)).2 "other-table" (by decide)⟩

/-- C10: the handler never reads its context argument: for every event and
store state, two invocations differing only in the context produce identical
outcomes, store states and effect traces. -/
theorem C10_context_independence (s3St : S3State) (db : DDBState) (e : Event)
    (c1 c2 : Context) :
    lambda_handler s3St db e c1 = lambda_handler s3St db e c2 := rfl
